import Mathlib

/-!
Verification of the trajectory/anomaly math engine of the
Satellite-Data-Normalization repository (`src/run.py`).

The engine `calculate_mission_state` maps an anomaly percentage to the
true orbit path, the "ghost" (erroneous) orbit path, and a snapshot of
both at the fixed reference time `t = 7.5`.  The caller derives a planar
drift metric from the snapshot and a threshold-based status label.

The Python/NumPy float computations are embedded over the real numbers:
every array is a `List ℝ` and the trigonometric functions are
`Real.cos` / `Real.sin`.
-/

namespace SatelliteMission

noncomputable section

/-- Embedding of `np.linspace(0, 10, 100)`: the 100 equally spaced sample times from
0 to 10 inclusive, i.e. `t_i = 10 * i / 99` for `i = 0, …, 99`
(from `src/run.py` line 17). -/
def t_range : List ℝ := (List.range 100).map (fun i : ℕ => 10 * (i : ℝ) / 99)

/-- The fixed reference time of the snapshot (`src/run.py` line 18). -/
def t_snapshot : ℝ := 7.5

/-- The source-of-truth orbital radius in km (`src/run.py` line 19). -/
def r_base : ℝ := 7000

/-- The fixed angular rate in rad per unit time (`src/run.py` line 20). -/
def omega : ℝ := 0.5

/-- The full result of `calculate_mission_state`: the true path arrays
`x_t, y_t, z_t`, the ghost path arrays `x_e, y_e, z_e`, and the five
snapshot scalars `(snap_xt, snap_yt, snap_xe, snap_ye, snap_r)`
(the Python function returns them as nested tuples; field names follow
the local variable names of `src/run.py`, with `snap_r` for the fifth
snapshot component, the ghost radius `r_err`). -/
structure MissionState where
  x_t : List ℝ
  y_t : List ℝ
  z_t : List ℝ
  x_e : List ℝ
  y_e : List ℝ
  z_e : List ℝ
  snap_xt : ℝ
  snap_yt : ℝ
  snap_xe : ℝ
  snap_ye : ℝ
  snap_r : ℝ

/-- Embedding of `calculate_mission_state` (`src/run.py` lines 16–39).
`r_err = r_base * (1 + error_pct / 100)`; the ghost path uses `r_err`
in place of `r_base` and reuses the true path's `z` array (`z_e = z_t`). -/
def calculate_mission_state (error_pct : ℝ) : MissionState :=
  let r_err : ℝ := r_base * (1 + error_pct / 100)
  { x_t := t_range.map (fun t => r_base * Real.cos (omega * t))
    y_t := t_range.map (fun t => r_base * Real.sin (omega * t))
    z_t := t_range.map (fun t => t * 100)
    x_e := t_range.map (fun t => r_err * Real.cos (omega * t))
    y_e := t_range.map (fun t => r_err * Real.sin (omega * t))
    z_e := t_range.map (fun t => t * 100)
    snap_xt := r_base * Real.cos (omega * t_snapshot)
    snap_yt := r_base * Real.sin (omega * t_snapshot)
    snap_xe := r_err * Real.cos (omega * t_snapshot)
    snap_ye := r_err * Real.sin (omega * t_snapshot)
    snap_r := r_err }

/-- The planar targeting drift computed by the caller from the snapshot
(`src/run.py` line 58): `sqrt((snap[0]-snap[2])^2 + (snap[1]-snap[3])^2)`. -/
def drift (error_pct : ℝ) : ℝ :=
  let s := calculate_mission_state error_pct
  Real.sqrt ((s.snap_xt - s.snap_xe) ^ 2 + (s.snap_yt - s.snap_ye) ^ 2)

/-- The threshold-based status label attached to the drift metric
(`src/run.py` line 59): `"CRITICAL" if drift > 500 else "OK"`. -/
def driftStatus (error_pct : ℝ) : String :=
  if drift error_pct > 500 then "CRITICAL" else "OK"

/-- Closed form of the drift metric: the planar drift equals `70 * |e|`. -/
theorem drift_closed_form (e : ℝ) : drift e = 70 * |e| := by
  unfold drift calculate_mission_state
  simp only
  have hkey : (r_base * Real.cos (omega * t_snapshot) -
        r_base * (1 + e / 100) * Real.cos (omega * t_snapshot)) ^ 2 +
      (r_base * Real.sin (omega * t_snapshot) -
        r_base * (1 + e / 100) * Real.sin (omega * t_snapshot)) ^ 2 =
      (70 * e) ^ 2 := by
    have htrig := Real.cos_sq_add_sin_sq (omega * t_snapshot)
    have : (r_base * Real.cos (omega * t_snapshot) -
        r_base * (1 + e / 100) * Real.cos (omega * t_snapshot)) ^ 2 +
      (r_base * Real.sin (omega * t_snapshot) -
        r_base * (1 + e / 100) * Real.sin (omega * t_snapshot)) ^ 2 =
      (r_base * (e / 100)) ^ 2 *
        (Real.cos (omega * t_snapshot) ^ 2 + Real.sin (omega * t_snapshot) ^ 2) := by
      ring
    rw [this, htrig, r_base]
    ring
  rw [hkey, Real.sqrt_sq_eq_abs, abs_mul]
  norm_num

/-- Accessor: the true path x array (definitional unfolding). -/
theorem x_t_def (e : ℝ) : (calculate_mission_state e).x_t =
    t_range.map (fun t => r_base * Real.cos (omega * t)) := rfl

/-- Accessor: the true path y array (definitional unfolding). -/
theorem y_t_def (e : ℝ) : (calculate_mission_state e).y_t =
    t_range.map (fun t => r_base * Real.sin (omega * t)) := rfl

/-- Accessor: the true path z array (definitional unfolding). -/
theorem z_t_def (e : ℝ) : (calculate_mission_state e).z_t =
    t_range.map (fun t => t * 100) := rfl

/-- Accessor: the ghost path x array (definitional unfolding). -/
theorem x_e_def (e : ℝ) : (calculate_mission_state e).x_e =
    t_range.map (fun t => r_base * (1 + e / 100) * Real.cos (omega * t)) := rfl

/-- Accessor: the ghost path y array (definitional unfolding). -/
theorem y_e_def (e : ℝ) : (calculate_mission_state e).y_e =
    t_range.map (fun t => r_base * (1 + e / 100) * Real.sin (omega * t)) := rfl

/-- Accessor: the ghost path z array (definitional unfolding). -/
theorem z_e_def (e : ℝ) : (calculate_mission_state e).z_e =
    t_range.map (fun t => t * 100) := rfl

/-- Accessor: the five snapshot scalars (definitional unfolding). -/
theorem snap_def (e : ℝ) :
    (calculate_mission_state e).snap_xt = r_base * Real.cos (omega * t_snapshot) ∧
    (calculate_mission_state e).snap_yt = r_base * Real.sin (omega * t_snapshot) ∧
    (calculate_mission_state e).snap_xe =
      r_base * (1 + e / 100) * Real.cos (omega * t_snapshot) ∧
    (calculate_mission_state e).snap_ye =
      r_base * (1 + e / 100) * Real.sin (omega * t_snapshot) ∧
    (calculate_mission_state e).snap_r = r_base * (1 + e / 100) :=
  ⟨rfl, rfl, rfl, rfl, rfl⟩

/-- C1: for every real input `errorPercent = e`, the ghost radius returned
by the engine (the fifth snapshot value) equals `7000 * (1 + e / 100)`
exactly. -/
theorem ghost_radius_closed_form (e : ℝ) :
    (calculate_mission_state e).snap_r = 7000 * (1 + e / 100) := rfl

/-- C2: for `errorPercent = 0` the ghost radius equals 7000 exactly, the
ghost path coincides with the true path in all three coordinate arrays,
and the planar drift computed from the snapshot equals 0. -/
theorem zero_error_no_anomaly :
    (calculate_mission_state 0).snap_r = 7000 ∧
    (calculate_mission_state 0).x_e = (calculate_mission_state 0).x_t ∧
    (calculate_mission_state 0).y_e = (calculate_mission_state 0).y_t ∧
    (calculate_mission_state 0).z_e = (calculate_mission_state 0).z_t ∧
    drift 0 = 0 := by
  refine ⟨?_, ?_, ?_, rfl, ?_⟩
  · rw [(snap_def 0).2.2.2.2, r_base]; norm_num
  · rw [x_e_def, x_t_def]
    exact List.map_congr_left fun t _ => by norm_num
  · rw [y_e_def, y_t_def]
    exact List.map_congr_left fun t _ => by norm_num
  · rw [drift_closed_form]; simp

/-- C3: for every input, the planar drift equals the Euclidean distance
between the snapshot's true position and ghost position, and the status
label is "CRITICAL" exactly when the drift is strictly greater than 500,
and "OK" exactly when it is not. -/
theorem drift_and_status_spec (e : ℝ) :
    drift e = Real.sqrt
      (((calculate_mission_state e).snap_xt - (calculate_mission_state e).snap_xe) ^ 2 +
       ((calculate_mission_state e).snap_yt - (calculate_mission_state e).snap_ye) ^ 2) ∧
    (driftStatus e = "CRITICAL" ↔ drift e > 500) ∧
    (driftStatus e = "OK" ↔ drift e ≤ 500) := by
  refine ⟨rfl, ?_, ?_⟩ <;> unfold driftStatus <;> split_ifs with h
  · exact iff_of_true rfl h
  · exact iff_of_false (by decide) h
  · exact iff_of_false (by decide) (not_le.mpr h)
  · exact iff_of_true rfl (not_lt.mp h)

/-- The time grid has exactly 100 entries. -/
theorem t_range_length : t_range.length = 100 := by
  rw [t_range, List.length_map, List.length_range]

/-- The i-th sample time of the grid, as a total function on `Fin 100`. -/
def tSample (i : Fin 100) : ℝ :=
  t_range.get (Fin.cast t_range_length.symm i)

/-- Closed form of the sample times: `t_i = 10 * i / 99`. -/
theorem tSample_eq (i : Fin 100) : tSample i = 10 * (i.val : ℝ) / 99 := by
  simp only [tSample, t_range, List.get_eq_getElem, Fin.coe_cast,
    List.getElem_map, List.getElem_range]

/-- C4: for every input, each of the six path coordinate arrays has exactly
100 samples, and the time grid they are sampled on starts at `t = 0`,
ends at `t = 10`, and is equally spaced (consecutive times differ by the
constant `10 / 99`). -/
theorem paths_sampling_spec (e : ℝ) :
    (calculate_mission_state e).x_t.length = 100 ∧
    (calculate_mission_state e).y_t.length = 100 ∧
    (calculate_mission_state e).z_t.length = 100 ∧
    (calculate_mission_state e).x_e.length = 100 ∧
    (calculate_mission_state e).y_e.length = 100 ∧
    (calculate_mission_state e).z_e.length = 100 ∧
    tSample ⟨0, by norm_num⟩ = 0 ∧
    tSample ⟨99, by norm_num⟩ = 10 ∧
    ∀ i : Fin 99, tSample i.succ - tSample i.castSucc = 10 / 99 := by
  refine ⟨?_, ?_, ?_, ?_, ?_, ?_, ?_, ?_, ?_⟩
  · rw [x_t_def, List.length_map]; exact t_range_length
  · rw [y_t_def, List.length_map]; exact t_range_length
  · rw [z_t_def, List.length_map]; exact t_range_length
  · rw [x_e_def, List.length_map]; exact t_range_length
  · rw [y_e_def, List.length_map]; exact t_range_length
  · rw [z_e_def, List.length_map]; exact t_range_length
  · rw [tSample_eq]; norm_num
  · rw [tSample_eq]; norm_num
  · intro i
    rw [tSample_eq, tSample_eq]
    simp only [Fin.val_succ, Fin.coe_castSucc]
    push_cast
    ring

/-- C5: for every input and every sample index, the true path sample is the
closed form `(7000 * cos (0.5 * t), 7000 * sin (0.5 * t), 100 * t)`
evaluated at the grid time `t = 10 * i / 99`. -/
theorem true_path_closed_form (e : ℝ) :
    (calculate_mission_state e).x_t =
      (List.range 100).map (fun i : ℕ => 7000 * Real.cos (0.5 * (10 * (i : ℝ) / 99))) ∧
    (calculate_mission_state e).y_t =
      (List.range 100).map (fun i : ℕ => 7000 * Real.sin (0.5 * (10 * (i : ℝ) / 99))) ∧
    (calculate_mission_state e).z_t =
      (List.range 100).map (fun i : ℕ => 100 * (10 * (i : ℝ) / 99)) := by
  refine ⟨?_, ?_, ?_⟩
  · rw [x_t_def, t_range, List.map_map]; rfl
  · rw [y_t_def, t_range, List.map_map]; rfl
  · rw [z_t_def, t_range, List.map_map]
    exact List.map_congr_left fun i _ => by simp [Function.comp]; ring

/-- C6: for every input, the ghost path's z array is identical to the true
path's z array: the anomaly never changes the z values. -/
theorem ghost_z_equals_true_z (e : ℝ) :
    (calculate_mission_state e).z_e = (calculate_mission_state e).z_t := rfl

/-- C7: for every input, the five snapshot scalars are both paths' x and y
evaluated at the fixed time `t = 7.5` together with the ghost radius:
`x_true = 7000 * cos (0.5 * 7.5)`, `y_true = 7000 * sin (0.5 * 7.5)`,
`x_ghost = R_ghost * cos (0.5 * 7.5)`, `y_ghost = R_ghost * sin (0.5 * 7.5)`. -/
theorem snapshot_spec (e : ℝ) :
    (calculate_mission_state e).snap_xt = 7000 * Real.cos (0.5 * 7.5) ∧
    (calculate_mission_state e).snap_yt = 7000 * Real.sin (0.5 * 7.5) ∧
    (calculate_mission_state e).snap_xe =
      (calculate_mission_state e).snap_r * Real.cos (0.5 * 7.5) ∧
    (calculate_mission_state e).snap_ye =
      (calculate_mission_state e).snap_r * Real.sin (0.5 * 7.5) :=
  ⟨rfl, rfl, rfl, rfl⟩

/-- C8: the snapshot drift is symmetric under sign change of the input and
strictly monotonically increasing in the absolute value of the input; in
particular `drift 20 > drift 10 > drift 0 = 0`. -/
theorem drift_symmetric_monotone :
    (∀ e : ℝ, drift (-e) = drift e) ∧
    (∀ a b : ℝ, |a| < |b| → drift a < drift b) ∧
    drift 20 > drift 10 ∧ drift 10 > drift 0 ∧ drift 0 = 0 := by
  have h10 : |(10 : ℝ)| = 10 := abs_of_nonneg (by norm_num)
  have h20 : |(20 : ℝ)| = 20 := abs_of_nonneg (by norm_num)
  refine ⟨fun e => ?_, fun a b hab => ?_, ?_, ?_, ?_⟩
  · rw [drift_closed_form, drift_closed_form, abs_neg]
  · rw [drift_closed_form, drift_closed_form]
    linarith
  · rw [drift_closed_form, drift_closed_form, h10, h20]; norm_num
  · rw [drift_closed_form, drift_closed_form, h10, abs_zero]; norm_num
  · rw [drift_closed_form, abs_zero]; norm_num

/-- Witness for C8: the strict-monotonicity clause applied at the concrete
inputs `a = 10`, `b = 20`. -/
theorem drift_symmetric_monotone_witness :
    |(10 : ℝ)| < |(20 : ℝ)| ∧ drift 10 < drift 20 :=
  ⟨by rw [abs_of_nonneg (by norm_num : (0:ℝ) ≤ 10),
        abs_of_nonneg (by norm_num : (0:ℝ) ≤ 20)]; norm_num,
   drift_symmetric_monotone.2.1 10 20
     (by rw [abs_of_nonneg (by norm_num : (0:ℝ) ≤ 10),
          abs_of_nonneg (by norm_num : (0:ℝ) ≤ 20)]; norm_num)⟩

/-- C9 counterexample: at `errorPercent = 5` the snapshot drift is exactly
350 km, not approximately 349.8 km — it misses 349.8 by 0.2, beyond any
reading of one-decimal approximation (the code even displays it with two
decimals, as 350.00). -/
theorem drift_at_five_not_349_8 :
    drift 5 = 350 ∧ ¬ |drift 5 - 349.8| ≤ (0.1 : ℝ) := by
  have h5 : drift 5 = 350 := by
    rw [drift_closed_form, abs_of_nonneg (by norm_num : (0:ℝ) ≤ 5)]
    norm_num
  refine ⟨h5, ?_⟩
  rw [h5, show (350 : ℝ) - 349.8 = 0.2 by norm_num,
    abs_of_nonneg (by norm_num : (0:ℝ) ≤ 0.2)]
  norm_num

/-- C9 amended: for `errorPercent = 5`, the ghost radius equals 7350, the
snapshot planar drift equals 350 km exactly, and since the drift does not
exceed 500 the status label is "OK". -/
theorem scenario_e5_spec :
    (calculate_mission_state 5).snap_r = 7350 ∧
    drift 5 = 350 ∧ drift 5 ≤ 500 ∧ driftStatus 5 = "OK" := by
  have h5 : drift 5 = 350 := by
    rw [drift_closed_form, abs_of_nonneg (by norm_num : (0:ℝ) ≤ 5)]
    norm_num
  refine ⟨?_, h5, by rw [h5]; norm_num, ?_⟩
  · rw [(snap_def 5).2.2.2.2, r_base]; norm_num
  · unfold driftStatus
    rw [if_neg]
    rw [h5]
    norm_num

/-- C10: the ghost path is exactly a uniform planar scaling of the true
path by the factor `1 + e / 100`, both along the whole sampled arrays and
at the snapshot. -/
theorem ghost_is_scaled_true (e : ℝ) :
    (calculate_mission_state e).x_e =
      (calculate_mission_state e).x_t.map (fun v => (1 + e / 100) * v) ∧
    (calculate_mission_state e).y_e =
      (calculate_mission_state e).y_t.map (fun v => (1 + e / 100) * v) ∧
    (calculate_mission_state e).snap_xe =
      (1 + e / 100) * (calculate_mission_state e).snap_xt ∧
    (calculate_mission_state e).snap_ye =
      (1 + e / 100) * (calculate_mission_state e).snap_yt := by
  refine ⟨?_, ?_, ?_, ?_⟩
  · rw [x_e_def, x_t_def, List.map_map]
    exact List.map_congr_left fun t _ => by simp only [Function.comp_apply]; ring
  · rw [y_e_def, y_t_def, List.map_map]
    exact List.map_congr_left fun t _ => by simp only [Function.comp_apply]; ring
  · rw [(snap_def e).2.2.1, (snap_def e).1]; ring
  · rw [(snap_def e).2.2.2.1, (snap_def e).2.1]; ring

end

end SatelliteMission
